import Mathlib

/-!
Verification development for the pyModeS ADS-B decoder core
(`pyModeS/decoder/adsb.py`): the typecode-driven dispatch logic and the
NIC/NAC/SIL/Version integrity decode tables.

Messages are 28-character hexadecimal strings (112 bits), modelled as
`List Char`.  The bit utilities (`hex2bin`, `bin2int`) and the frame
accessor `typecode` live in the out-of-scope collaborator module
`pyModeS.decoder.common`; they are modelled from the specification of
their interfaces (hexToBinary returns the binary-expansion bitstring,
bitsToInt interprets a bitstring as an unsigned integer, typeCode is the
5-bit field at the standard ME-field offset, bits 32..36).

Python semantics that matter and are modelled explicitly:
  - a string slice `s[a:b]` silently clips to the string length;
  - indexing `s[i]` yields a one-character string;
  - the truthiness of a string is its non-emptiness (so the character
    "0" is truthy), and the truthiness of a number is being nonzero
    (so a reference latitude of 0 is falsy);
  - functions that raise RuntimeError are modelled with `Except String`.
-/

namespace PyADSB

/-- Python string slice s[a:b] (for 0 ≤ a ≤ b; clips at the length). -/
def pySlice (s : List Char) (a b : Nat) : List Char := (s.drop a).take (b - a)

/-- Python string indexing s[i], which yields a one-character string
(empty when out of range, where Python would raise IndexError; all
indices used by the decoders are in range for 112-bit messages). -/
def pyIndex (s : List Char) (i : Nat) : List Char := pySlice s i (i + 1)

/-- Python truthiness of a string: nonempty strings are truthy
(including the one-character string "0"). -/
def pyTruthy (s : List Char) : Bool := !s.isEmpty

/-- Python truthiness of an optional number: None and 0 are falsy. -/
def pyTruthyNum (x : Option Rat) : Bool :=
  match x with
  | none => false
  | some v => v != 0

/-- Value of a hexadecimal digit (case-insensitive, per the spec input
format); other characters are given value 0 (Python would raise). -/
def hexVal (c : Char) : Nat :=
  if '0' ≤ c ∧ c ≤ '9' then c.toNat - '0'.toNat
  else if 'a' ≤ c ∧ c ≤ 'f' then c.toNat - 'a'.toNat + 10
  else if 'A' ≤ c ∧ c ≤ 'F' then c.toNat - 'A'.toNat + 10
  else 0

/-- The character for one bit of the binary expansion. -/
def bitChar (b : Bool) : Char := if b then '1' else '0'

/-- The four binary-expansion characters of one nibble, most significant
bit first. -/
def nibbleBits (n : Nat) : List Char :=
  [bitChar (n.testBit 3), bitChar (n.testBit 2), bitChar (n.testBit 1), bitChar (n.testBit 0)]

/-- Modelled from the spec: the collaborator bit utility
`hexToBinary(hex) -> bitstring` of `pyModeS.decoder.common` (not under
src/), which converts the hexadecimal message string to its
binary-expansion bitstring, four bits per hex digit, zero-filled. -/
def hex2bin : List Char → List Char
  | [] => []
  | c :: cs => nibbleBits (hexVal c) ++ hex2bin cs

/-- Modelled from the spec: the collaborator bit utility
`bitsToInt(bitstring) -> int` of `pyModeS.decoder.common` (not under
src/), which interprets a bitstring as an unsigned binary integer.
Characters other than the bit character one count as zero; the spec
assigns it no failure mode (Python int with an empty string raises). -/
def bin2int (s : List Char) : Nat :=
  s.foldl (fun acc c => 2 * acc + (if c = '1' then 1 else 0)) 0

/-- Python int(s) in base 10 on a digit string, as used by oe_flag on a
one-character bit string. -/
def pyInt10 (s : List Char) : Nat :=
  s.foldl (fun acc c => 10 * acc + (c.toNat - '0'.toNat)) 0

/-- Modelled from the spec: the Frame Accessor `typeCode(msg)` of
`pyModeS.decoder.common` (not under src/): the 5-bit field at the
standard ME-field offset, bits 32..36 of the binary expansion. -/
def typecode (msg : List Char) : Nat := bin2int (pySlice (hex2bin msg) 32 37)

/-- Modelled from the spec: the Frame Accessor `downlinkFormat(msg)`:
the top 5 bits as an unsigned integer. -/
def df (msg : List Char) : Nat := bin2int (pySlice (hex2bin msg) 0 5)

/-- Modelled from the spec: the Frame Accessor `icaoAddress(msg)`: the
24-bit field at the standard ADS-B offset, bits 8..31. -/
def icao (msg : List Char) : Nat := bin2int (pySlice (hex2bin msg) 8 32)

/-- Character of the binary expansion of a message at a given index
(the default is never hit for in-range indices of 112-bit messages). -/
def bitAt (msg : List Char) (i : Nat) : Char := (hex2bin msg).getD i '0'

/-- adsb.position: decode position from a pair of even and odd position
messages.  The geometric solvers `surface_position` and
`airborne_position` are out-of-scope collaborators, passed as
parameters; `t0`, `t1` are timestamps passed through to them.  Python
checks `not lat_ref or not lon_ref`, so a reference coordinate equal to
0 is treated like an absent one (numeric truthiness). -/
def position {α : Type} (surface_position : List Char → List Char → Int → Int → Rat → Rat → α)
    (airborne_position : List Char → List Char → Int → Int → α)
    (msg0 msg1 : List Char) (t0 t1 : Int)
    (lat_ref lon_ref : Option Rat) : Except String α :=
  let tc0 := typecode msg0
  let tc1 := typecode msg1
  if 5 ≤ tc0 ∧ tc0 ≤ 8 ∧ 5 ≤ tc1 ∧ tc1 ≤ 8 then
    if !(pyTruthyNum lat_ref) || !(pyTruthyNum lon_ref) then
      Except.error "Surface position encountered, a reference position lat/lon required. Location of receiver can be used."
    else
      Except.ok (surface_position msg0 msg1 t0 t1 (lat_ref.getD 0) (lon_ref.getD 0))
  else if 9 ≤ tc0 ∧ tc0 ≤ 18 ∧ 9 ≤ tc1 ∧ tc1 ≤ 18 then
    Except.ok (airborne_position msg0 msg1 t0 t1)
  else if 20 ≤ tc0 ∧ tc0 ≤ 22 ∧ 20 ≤ tc1 ∧ tc1 ≤ 22 then
    Except.ok (airborne_position msg0 msg1 t0 t1)
  else
    Except.error "incorrect or inconsistant message types"

/-- adsb.altitude: decode aircraft altitude.  Note the source sets
`q = msgbin[47]` (a one-character string) and tests `if q:`, which is
Python string truthiness: the character "0" is truthy too, so the
else-branch returning None is unreachable for 112-bit messages. -/
def altitude (msg : List Char) : Except String (Option Int) :=
  let tc := typecode msg
  if tc < 5 ∨ tc = 19 ∨ 22 < tc then
    Except.error (String.mk msg ++ ": Not a position message")
  else if 5 ≤ tc ∧ tc ≤ 8 then
    Except.ok (some 0)
  else
    let msgbin := hex2bin msg
    let q := pyIndex msgbin 47
    if pyTruthy q then
      let n := bin2int (pySlice msgbin 40 47 ++ pySlice msgbin 48 52)
      Except.ok (some ((n : Int) * 25 - 1000))
    else
      Except.ok none

/-- adsb.oe_flag: the odd/even CPR format flag, bit 54 (binary index
53); `int(msgbin[53])` in the source. -/
def oe_flag (msg : List Char) : Nat := pyInt10 (pyIndex (hex2bin msg) 53)

/-- adsb.nic: navigation integrity category (version 0 table), domain
TC in [9,18]. -/
def nic (msg : List Char) : Except String Int :=
  if typecode msg < 9 ∨ 18 < typecode msg then
    Except.error (String.mk msg ++ ": Not a airborne position message, expecting 8<TC<19")
  else
    let msgbin := hex2bin msg
    let tc := typecode msg
    let nic_sup_b := bin2int (pyIndex msgbin 39)
    Except.ok
      (if tc = 0 ∨ tc = 18 ∨ tc = 22 then 0
       else if tc = 17 then 1
       else if tc = 16 then (if nic_sup_b ≠ 0 then 3 else 2)
       else if tc = 15 then 4
       else if tc = 14 then 5
       else if tc = 13 then 6
       else if tc = 12 then 7
       else if tc = 11 then (if nic_sup_b ≠ 0 then 9 else 8)
       else if tc = 10 ∨ tc = 21 then 10
       else if tc = 9 ∨ tc = 20 then 11
       else -1)

/-- adsb.nic_v1: version-1 NIC table, domain TC in [5,22]; the caller
supplies the NICb supplement as an integer tested for truthiness.
The TC=13 branch of the source tests the supplement but produces 6 on
both sides; it is preserved as written. -/
def nic_v1 (msg : List Char) (nic_sup_b : Nat) : Except String Int :=
  if typecode msg < 5 ∨ 22 < typecode msg then
    Except.error (String.mk msg ++ ": Not a surface position message (5<TC<8, )airborne position message (8<TC<19), airborne position with GNSS height (20<TC<22)")
  else
    let tc := typecode msg
    Except.ok
      (if tc = 0 ∨ tc = 8 ∨ tc = 18 ∨ tc = 22 then 0
       else if tc = 17 then 1
       else if tc = 16 then (if nic_sup_b ≠ 0 then 3 else 2)
       else if tc = 15 then 4
       else if tc = 14 then 5
       else if tc = 13 then (if nic_sup_b ≠ 0 then 6 else 6)
       else if tc = 12 then 7
       else if tc = 11 then (if nic_sup_b ≠ 0 then 9 else 8)
       else if tc = 6 ∨ tc = 10 ∨ tc = 21 then 10
       else if tc = 5 ∨ tc = 9 ∨ tc = 20 then 11
       else if tc = 7 then (if nic_sup_b ≠ 0 then 9 else 8)
       else -1)

/-- adsb.nic_v2: version-2 NIC table, domain TC in [5,22], with the
three supplement bits NICa, NICb, NICc supplied by the caller.  The
TC=13 nested branch of the source resolves to 6 on every path; it is
preserved as written. -/
def nic_v2 (msg : List Char) (nic_a nic_b nic_c : Nat) : Except String Int :=
  if typecode msg < 5 ∨ 22 < typecode msg then
    Except.error (String.mk msg ++ ": Not a surface position message (5<TC<8, )airborne position message (8<TC<19), airborne position with GNSS height (20<TC<22)")
  else
    let tc := typecode msg
    Except.ok
      (if tc = 0 ∨ tc = 18 ∨ tc = 22 then 0
       else if tc = 17 then 1
       else if tc = 16 then (if nic_a ≠ 0 then 3 else 2)
       else if tc = 15 then 4
       else if tc = 14 then 5
       else if tc = 13 then
         (if nic_a ≠ 0 then 6 else (if nic_b ≠ 0 then 6 else 6))
       else if tc = 12 then 7
       else if tc = 11 then (if nic_a ≠ 0 then 9 else 8)
       else if tc = 6 ∨ tc = 10 ∨ tc = 21 then 10
       else if tc = 5 ∨ tc = 9 ∨ tc = 20 then 11
       else if tc = 8 then
         (if nic_a ≠ 0 then (if nic_c ≠ 0 then 7 else 6)
          else (if nic_c ≠ 0 then 6 else 0))
       else if tc = 7 then (if nic_a ≠ 0 then 9 else 8)
       else -1)

/-- adsb.nic_s: NICs supplement bit, domain TC = 31; bit index 75. -/
def nic_s (msg : List Char) : Except String Nat :=
  if typecode msg ≠ 31 then
    Except.error (String.mk msg ++ ": Not a status operation message, expecting TC = 31")
  else
    Except.ok (bin2int (pyIndex (hex2bin msg) 75))

/-- adsb.nic_a_and_c: (NICa, NICc) supplement bits, domain TC = 31;
bit indices 75 and 51. -/
def nic_a_and_c (msg : List Char) : Except String (Nat × Nat) :=
  if typecode msg ≠ 31 then
    Except.error (String.mk msg ++ ": Not a status operation message, expecting TC = 31")
  else
    let msgbin := hex2bin msg
    Except.ok (bin2int (pyIndex msgbin 75), bin2int (pyIndex msgbin 51))

/-- adsb.nic_b: NICb supplement bit, domain TC in [9,18]; bit index 39. -/
def nic_b (msg : List Char) : Except String Nat :=
  if typecode msg < 9 ∨ 18 < typecode msg then
    Except.error (String.mk msg ++ ": Not a airborne position message, expecting 8<TC<19")
  else
    Except.ok (bin2int (pyIndex (hex2bin msg) 39))

/-- adsb.nac_p: navigation accuracy category for position, domain
TC in {29, 31}. -/
def nac_p (msg : List Char) : Except String Int :=
  if ¬ (typecode msg = 29 ∨ typecode msg = 31) then
    Except.error (String.mk msg ++ ": Not a target state and status message neither operation status message, expecting TC = 29 or 31")
  else
    let msgbin := hex2bin msg
    let tc := typecode msg
    Except.ok
      (if tc = 29 then (bin2int (pySlice msgbin 71 75) : Int)
       else if tc = 31 then (bin2int (pySlice msgbin 76 80) : Int)
       else -1)

/-- adsb.nac_v: navigation accuracy category for velocity, domain
TC = 19. -/
def nac_v (msg : List Char) : Except String Int :=
  if typecode msg ≠ 19 then
    Except.error (String.mk msg ++ ": Not an airborne velocity message, expecting TC = 19")
  else
    let msgbin := hex2bin msg
    let tc := typecode msg
    Except.ok
      (if tc = 19 then (bin2int (pySlice msgbin 42 45) : Int)
       else -1)

/-- adsb.sil: surveillance integrity level, domain TC in {29, 31}.
The TC=31 branch of the source slices the raw hexadecimal string
(`msg[82:84]`, not `msgbin[82:84]`); for a 28-character message that
slice is empty (Python int with an empty string raises ValueError; the
total bit-utility model yields 0).  In the version-2 supplement branch
the source assigns `sils` only for TC 29 and 31; the remaining arm is
unreachable because of the domain guard (Python would leave `sils`
unbound there). -/
def sil (msg : List Char) (ver : Int) : Except String (Int × Int) :=
  if ¬ (typecode msg = 29 ∨ typecode msg = 31) then
    Except.error (String.mk msg ++ ": Not a target state and status message neither operation status message, expecting TC = 29 or 31")
  else
    let msgbin := hex2bin msg
    let tc := typecode msg
    let s : Int :=
      if tc = 29 then (bin2int (pySlice msgbin 76 78) : Int)
      else if tc = 31 then (bin2int (pySlice msg 82 84) : Int)
      else -1
    let sils : Int :=
      if ver = 2 then
        (if typecode msg = 29 then (bin2int (pyIndex msgbin 39) : Int)
         else if typecode msg = 31 then (bin2int (pyIndex msgbin 86) : Int)
         else 0)
      else -1
    Except.ok (s, sils)

/-- adsb.version: ADS-B protocol version, domain TC in {29, 31};
3-bit field at bits 72..74. -/
def version (msg : List Char) : Except String Int :=
  let msgbin := hex2bin msg
  if ¬ (typecode msg = 29 ∨ typecode msg = 31) then
    Except.error (String.mk msg ++ ": Not a target state and status message neither operation status message, expecting TC = 29 or 31")
  else
    Except.ok
      (if typecode msg = 29 ∨ typecode msg = 31 then (bin2int (pySlice msgbin 72 75) : Int)
       else -1)

/-- Version-1 NIC branch table transcribed from the specification text
(section 4.4), keyed by typecode and the NICb supplement argument; used
to state the refinement claim about `nic_v1`. -/
def specNicV1 (tc nicSupB : Nat) : Int :=
  if tc = 0 ∨ tc = 8 ∨ tc = 18 ∨ tc = 22 then 0
  else if tc = 17 then 1
  else if tc = 16 then (if nicSupB = 1 then 3 else 2)
  else if tc = 15 then 4
  else if tc = 14 then 5
  else if tc = 13 then 6
  else if tc = 12 then 7
  else if tc = 11 then (if nicSupB = 1 then 9 else 8)
  else if tc = 6 ∨ tc = 10 ∨ tc = 21 then 10
  else if tc = 5 ∨ tc = 9 ∨ tc = 20 then 11
  else if tc = 7 then (if nicSupB = 1 then 9 else 8)
  else -1

/-- Version-2 NIC branch table transcribed from the specification text
(section 4.4), keyed by typecode and the NICa/NICb/NICc supplement
arguments; used to state the refinement claim about `nic_v2`. -/
def specNicV2 (tc nicA nicB nicC : Nat) : Int :=
  if tc = 0 ∨ tc = 18 ∨ tc = 22 then 0
  else if tc = 17 then 1
  else if tc = 16 then (if nicA = 1 then 3 else 2)
  else if tc = 15 then 4
  else if tc = 14 then 5
  else if tc = 13 then 6
  else if tc = 12 then 7
  else if tc = 11 then (if nicA = 1 then 9 else 8)
  else if tc = 6 ∨ tc = 10 ∨ tc = 21 then 10
  else if tc = 5 ∨ tc = 9 ∨ tc = 20 then 11
  else if tc = 8 then
    (if nicA = 1 ∧ nicC = 1 then 7
     else if nicA = 1 ∧ nicC = 0 then 6
     else if nicA = 0 ∧ nicC = 1 then 6
     else 0)
  else if tc = 7 then (if nicA = 1 then 9 else 8)
  else -1

/-- Two decode outcomes agree up to the error payload: both succeed
with the same value, or both signal an error (the RuntimeError strings
of the source embed the offending message verbatim, so two different
messages never raise textually identical errors). -/
def sameOutcome {α : Type} : Except String α → Except String α → Prop
  | Except.ok x, Except.ok y => x = y
  | Except.error _, Except.error _ => True
  | _, _ => False

/-- Agreement of every non-delegating decode function of this core on
two messages (the position and velocity dispatchers hand the whole
message to out-of-scope geometric solvers, so only their routing, a
function of `typecode` alone, belongs to the core). -/
def decodeAgree (m1 m2 : List Char) : Prop :=
  typecode m1 = typecode m2 ∧
  df m1 = df m2 ∧
  icao m1 = icao m2 ∧
  sameOutcome (altitude m1) (altitude m2) ∧
  sameOutcome (nic m1) (nic m2) ∧
  (∀ a, sameOutcome (nic_v1 m1 a) (nic_v1 m2 a)) ∧
  (∀ a b c, sameOutcome (nic_v2 m1 a b c) (nic_v2 m2 a b c)) ∧
  sameOutcome (nic_s m1) (nic_s m2) ∧
  sameOutcome (nic_a_and_c m1) (nic_a_and_c m2) ∧
  sameOutcome (nic_b m1) (nic_b m2) ∧
  sameOutcome (nac_p m1) (nac_p m2) ∧
  sameOutcome (nac_v m1) (nac_v m2) ∧
  (∀ v, sameOutcome (sil m1 v) (sil m2 v)) ∧
  sameOutcome ( version m1) ( version m2)

/-- Airborne position message, TC = 11, Q-bit (binary index 47) set;
the classic 38000 ft example frame. -/
def msgAir : List Char := "8D40621D58C382D690C8AC2863A7".data

/-- The same frame with only the Q-bit (binary index 47) cleared:
hex digit 11 changes from 3 to 2, leaving bits 44..46 and 48..51
unchanged. -/
def msgAirQ0 : List Char := "8D40621D58C282D690C8AC2863A7".data

/-- The same frame as `msgAir` with only the CPR odd/even bit (binary
index 53) flipped: hex digit 13 changes from 2 to 6. -/
def msgAirFlip : List Char := "8D40621D58C386D690C8AC2863A7".data

/-- Operational status message, TC = 31, with NICs = NICa = 1 (bit 75),
NICc = 1 (bit 51), binary SIL field msgbin[82:84] = 3, and the
version-2 SIL supplement bit 86 set. -/
def msgOps : List Char := "8D40621DF8001000001032000000".data

/-- Surface position message, TC = 6. -/
def msgSurf : List Char := "8D40621D30000000000000000000".data

/-- Airborne velocity message, TC = 19. -/
def msgVel : List Char := "8D40621D98000000000000000000".data

/-- Concrete stand-in for the out-of-scope surface paired solver,
returning its reference arguments. -/
def surfSolver (m0 m1 : List Char) (t0 t1 : Int) (la lo : Rat) : Rat × Rat := (la, lo)

/-- Concrete stand-in for the out-of-scope airborne paired solver. -/
def airSolver (m0 m1 : List Char) (t0 t1 : Int) : Rat × Rat := ((t0 : Rat), (t1 : Rat))

theorem hex2bin_length (msg : List Char) : (hex2bin msg).length = 4 * msg.length := by
  induction msg with
  | nil => rfl
  | cons c cs ih =>
    simp only [hex2bin, nibbleBits, List.length_append, List.length_cons, ih]
    simp [Nat.mul_succ]
    omega

theorem mem_hex2bin_eq_bit {msg : List Char} {c : Char} (h : c ∈ hex2bin msg) :
    c = '0' ∨ c = '1' := by
  induction msg with
  | nil => simp [hex2bin] at h
  | cons d cs ih =>
    rw [hex2bin] at h
    rcases List.mem_append.mp h with h1 | h2
    · simp only [nibbleBits, List.mem_cons, List.not_mem_nil, or_false] at h1
      rcases h1 with rfl | rfl | rfl | rfl <;>
        · unfold bitChar
          split_ifs <;> simp
    · exact ih h2

theorem bitAt_eq_bit (msg : List Char) (i : Nat) : bitAt msg i = '0' ∨ bitAt msg i = '1' := by
  unfold bitAt
  by_cases h : i < (hex2bin msg).length
  · rw [List.getD_eq_getElem _ _ h]
    exact mem_hex2bin_eq_bit (List.getElem_mem h)
  · rw [List.getD_eq_default _ _ (by omega)]
    exact Or.inl rfl

theorem pyIndex_eq_getD {l : List Char} {i : Nat} (h : i < l.length) :
    pyIndex l i = [l.getD i '0'] := by
  unfold pyIndex pySlice
  have h1 : i + 1 - i = 1 := by omega
  rw [h1, List.drop_eq_getElem_cons h, List.getD_eq_getElem _ _ h]
  rfl

theorem pySlice_congr {l1 l2 : List Char} (h1 : l1.length = 112) (h2 : l2.length = 112)
    (hag : ∀ i ∈ Finset.range 112, i ≠ 53 → l1.getD i '0' = l2.getD i '0')
    (a b : Nat) (hb : b ≤ 112) (hout : 53 < a ∨ b ≤ 53) :
    pySlice l1 a b = pySlice l2 a b := by
  unfold pySlice
  apply List.ext_getElem
  · simp [h1, h2]
  · intro j hj1 hj2
    have hjb : j < b - a := by
      simp only [List.length_take, List.length_drop, h1, lt_min_iff] at hj1
      omega
    have hab1 : a + j < l1.length := by omega
    have hab2 : a + j < l2.length := by omega
    rw [List.getElem_take, List.getElem_drop, List.getElem_take, List.getElem_drop]
    have hmem : a + j ∈ Finset.range 112 := Finset.mem_range.mpr (by omega)
    have hne : a + j ≠ 53 := by omega
    have := hag (a + j) hmem hne
    rwa [List.getD_eq_getElem _ _ hab1, List.getD_eq_getElem _ _ hab2] at this

/-- C1: the claim says the TC=31 branch of `sil` decodes the primary
SIL component as the 2-bit field msgbin[82:84] of the binary expansion.
The source instead slices the raw 28-character hexadecimal string at
[82:84], which is out of range and therefore empty.  At the concrete
TC=31 frame `msgOps`, whose binary-expansion SIL field is 3, the source
computation yields 0 (Python int of the empty string would raise
ValueError), so the code contradicts the claim. -/
theorem sil_tc31_hex_slice_defect :
    typecode msgOps = 31 ∧
    pySlice msgOps 82 84 = [] ∧
    sil msgOps 0 = Except.ok (0, -1) ∧
    bin2int (pySlice (hex2bin msgOps) 82 84) = 3 := by
  exact ⟨rfl, rfl, rfl, rfl⟩

/-- C3: the claim says that for a typecode in [9,18] or [20,22] with
the Q-bit (binary index 47) equal to 0, `altitude` returns the unknown
result (none).  The source sets q to the one-character string
msgbin[47] and tests its Python truthiness, which holds for the
character "0" as well, so the none branch is dead: at the concrete
TC=11 frame `msgAirQ0` with Q-bit 0 the code returns a numeric
altitude. -/
theorem altitude_qbit_zero_defect :
    typecode msgAirQ0 = 11 ∧
    bitAt msgAirQ0 47 = '0' ∧
    altitude msgAirQ0 = Except.ok (some 38000) := by
  exact ⟨rfl, rfl, rfl⟩

/-- C6: whenever the two typecodes do not both lie in the same band
among [5,8], [9,18], [20,22], `position` signals the
inconsistent-message RuntimeError, for every solver pair, timestamps
and reference arguments. -/
theorem position_mismatched_bands_error {α : Type}
    (surf : List Char → List Char → Int → Int → Rat → Rat → α)
    (air : List Char → List Char → Int → Int → α)
    (msg0 msg1 : List Char) (t0 t1 : Int) (latR lonR : Option Rat)
    (h5 : ¬ (5 ≤ typecode msg0 ∧ typecode msg0 ≤ 8 ∧ 5 ≤ typecode msg1 ∧ typecode msg1 ≤ 8))
    (h9 : ¬ (9 ≤ typecode msg0 ∧ typecode msg0 ≤ 18 ∧ 9 ≤ typecode msg1 ∧ typecode msg1 ≤ 18))
    (h20 : ¬ (20 ≤ typecode msg0 ∧ typecode msg0 ≤ 22 ∧ 20 ≤ typecode msg1 ∧ typecode msg1 ≤ 22)) :
    position surf air msg0 msg1 t0 t1 latR lonR =
      Except.error "incorrect or inconsistant message types" := by
  simp only [position]
  rw [if_neg h5, if_neg h9, if_neg h20]

/-- C6 witness: a TC=6 surface frame paired with a TC=11 airborne
frame signals the inconsistent-message error. -/
theorem position_mismatched_bands_error_witness :
    position surfSolver airSolver msgSurf msgAir 0 1 none none =
      Except.error "incorrect or inconsistant message types" :=
  position_mismatched_bands_error surfSolver airSolver msgSurf msgAir 0 1 none none
    (by decide) (by decide) (by decide)

/-- C5 counterexample: the claim says that for a surface pair with a
supplied reference, `position` delegates to the surface solver.  With
the supplied reference latitude 0 (a perfectly valid coordinate, but
falsy in Python), the source raises the missing-reference RuntimeError
instead of delegating. -/
theorem position_zero_ref_counterexample :
    position surfSolver airSolver msgSurf msgSurf 0 1 (some 0) (some 5) =
      Except.error "Surface position encountered, a reference position lat/lon required. Location of receiver can be used." ∧
    position surfSolver airSolver msgSurf msgSurf 0 1 (some 0) (some 5) ≠
      Except.ok (surfSolver msgSurf msgSurf 0 1 0 5) := by
  constructor
  · rfl
  · intro h
    have h1 : position surfSolver airSolver msgSurf msgSurf 0 1 (some 0) (some 5) =
        Except.error "Surface position encountered, a reference position lat/lon required. Location of receiver can be used." := rfl
    rw [h1] at h
    exact Except.noConfusion h

/-- C5 amended: for a surface pair (both typecodes in [5,8]), if either
reference coordinate is absent or zero-valued (Python numeric
falsiness), `position` signals the missing-reference RuntimeError; for
every supplied reference with both coordinates nonzero it delegates to
the surface paired solver and returns that solver result. -/
theorem position_surface_ref_amended {α : Type}
    (surf : List Char → List Char → Int → Int → Rat → Rat → α)
    (air : List Char → List Char → Int → Int → α)
    (msg0 msg1 : List Char) (t0 t1 : Int) (latR lonR : Option Rat)
    (h0 : 5 ≤ typecode msg0 ∧ typecode msg0 ≤ 8)
    (h1 : 5 ≤ typecode msg1 ∧ typecode msg1 ≤ 8) :
    ((pyTruthyNum latR = false ∨ pyTruthyNum lonR = false) →
      position surf air msg0 msg1 t0 t1 latR lonR =
        Except.error "Surface position encountered, a reference position lat/lon required. Location of receiver can be used.") ∧
    (∀ la lo : Rat, latR = some la → lonR = some lo → la ≠ 0 → lo ≠ 0 →
      position surf air msg0 msg1 t0 t1 latR lonR =
        Except.ok (surf msg0 msg1 t0 t1 la lo)) := by
  have hband : 5 ≤ typecode msg0 ∧ typecode msg0 ≤ 8 ∧ 5 ≤ typecode msg1 ∧ typecode msg1 ≤ 8 :=
    ⟨h0.1, h0.2, h1.1, h1.2⟩
  constructor
  · intro hfalsy
    simp only [position]
    rw [if_pos hband]
    have hcond : (!(pyTruthyNum latR) || !(pyTruthyNum lonR)) = true := by
      rcases hfalsy with h | h <;> simp [h]
    rw [if_pos hcond]
  · intro la lo hla hlo hlane hlone
    subst hla hlo
    simp only [position]
    rw [if_pos hband]
    have hcond : (!(pyTruthyNum (some la)) || !(pyTruthyNum (some lo))) = false := by
      simp [pyTruthyNum, hlane, hlone]
    rw [if_neg (by simp [hcond])]
    rfl

/-- C5 witness: absent reference signals the missing-reference error,
and a nonzero supplied reference is handed to the surface solver. -/
theorem position_surface_ref_amended_witness :
    position surfSolver airSolver msgSurf msgSurf 0 1 none none =
      Except.error "Surface position encountered, a reference position lat/lon required. Location of receiver can be used." ∧
    position surfSolver airSolver msgSurf msgSurf 0 1 (some 3) (some 4) =
      Except.ok (surfSolver msgSurf msgSurf 0 1 3 4) :=
  ⟨(position_surface_ref_amended surfSolver airSolver msgSurf msgSurf 0 1 none none
      (by decide) (by decide)).1 (Or.inl rfl),
   (position_surface_ref_amended surfSolver airSolver msgSurf msgSurf 0 1 (some 3) (some 4)
      (by decide) (by decide)).2 3 4 rfl rfl (by norm_num) (by norm_num)⟩

/-- C10: on its TC=31 domain, the NICs supplement returned by `nic_s`
always agrees with the NICa component of `nic_a_and_c`: both are read
from binary index 75. -/
theorem nic_s_agrees_with_nic_a (msg : List Char) (h : typecode msg = 31) :
    Except.map Prod.fst (nic_a_and_c msg) = nic_s msg := by
  unfold nic_a_and_c nic_s
  rw [if_neg (by simp [h]), if_neg (by simp [h])]
  rfl

/-- C10 witness: the agreement at a concrete TC=31 frame. -/
theorem nic_s_agrees_with_nic_a_witness :
    Except.map Prod.fst (nic_a_and_c msgOps) = nic_s msgOps :=
  nic_s_agrees_with_nic_a msgOps rfl

/-- C2: for every message with typecode in [5,22] and supplement
arguments each 0 or 1, `nic_v1` and `nic_v2` return exactly the values
of the version-1 and version-2 branch tables of the specification
(including the redundant TC=13 branches). -/
theorem nic_v1_v2_match_spec_tables :
    (∀ (msg : List Char) (a : Nat), 5 ≤ typecode msg → typecode msg ≤ 22 →
      a = 0 ∨ a = 1 →
      nic_v1 msg a = Except.ok (specNicV1 (typecode msg) a)) ∧
    (∀ (msg : List Char) (a b c : Nat), 5 ≤ typecode msg → typecode msg ≤ 22 →
      a = 0 ∨ a = 1 → b = 0 ∨ b = 1 → c = 0 ∨ c = 1 →
      nic_v2 msg a b c = Except.ok (specNicV2 (typecode msg) a b c)) := by
  constructor
  · intro msg a h5 h22 ha
    obtain ⟨tc, htc⟩ : ∃ t, typecode msg = t := ⟨_, rfl⟩
    rw [htc] at h5 h22
    unfold nic_v1 specNicV1
    rw [htc]
    rcases ha with rfl | rfl <;> interval_cases tc <;> simp
  · intro msg a b c h5 h22 ha hb hc
    obtain ⟨tc, htc⟩ : ∃ t, typecode msg = t := ⟨_, rfl⟩
    rw [htc] at h5 h22
    unfold nic_v2 specNicV2
    rw [htc]
    rcases ha with rfl | rfl <;> rcases hb with rfl | rfl <;> rcases hc with rfl | rfl <;>
      interval_cases tc <;> simp

/-- C2 witness: the tables at a concrete TC=11 frame with supplement
bits set. -/
theorem nic_v1_v2_match_spec_tables_witness :
    nic_v1 msgAir 1 = Except.ok (specNicV1 (typecode msgAir) 1) ∧
    nic_v2 msgAir 1 0 1 = Except.ok (specNicV2 (typecode msgAir) 1 0 1) :=
  ⟨nic_v1_v2_match_spec_tables.1 msgAir 1 (by decide) (by decide) (Or.inr rfl),
   nic_v1_v2_match_spec_tables.2 msgAir 1 0 1 (by decide) (by decide)
     (Or.inr rfl) (Or.inl rfl) (Or.inr rfl)⟩

/-- C4: `altitude` returns 0 for every surface typecode in [5,8]
(whatever the Q-bit), and for every airborne position typecode in
[9,18] or [20,22] with the Q-bit (binary index 47) set it returns
N*25 - 1000, where N is the 11-bit integer assembled from bits 40..46
concatenated with bits 48..51 of the binary expansion (the Q-bit
position is skipped). -/
theorem altitude_surface_and_qbit_one :
    (∀ msg : List Char, 5 ≤ typecode msg → typecode msg ≤ 8 →
      altitude msg = Except.ok (some 0)) ∧
    (∀ msg : List Char,
      (9 ≤ typecode msg ∧ typecode msg ≤ 18) ∨ (20 ≤ typecode msg ∧ typecode msg ≤ 22) →
      bitAt msg 47 = '1' →
      altitude msg = Except.ok (some
        ((bin2int (pySlice (hex2bin msg) 40 47 ++ pySlice (hex2bin msg) 48 52) : Int) * 25 - 1000))) := by
  constructor
  · intro msg h5 h8
    simp only [altitude]
    rw [if_neg (by omega), if_pos ⟨h5, h8⟩]
  · intro msg h hq
    have hlen : 47 < (hex2bin msg).length := by
      by_contra hc
      push_neg at hc
      rw [bitAt, List.getD_eq_default _ _ (by omega)] at hq
      exact absurd hq (by decide)
    have hcond1 : ¬ (typecode msg < 5 ∨ typecode msg = 19 ∨ 22 < typecode msg) := by
      rcases h with ⟨h1, h2⟩ | ⟨h1, h2⟩ <;> omega
    have hcond2 : ¬ (5 ≤ typecode msg ∧ typecode msg ≤ 8) := by
      rcases h with ⟨h1, h2⟩ | ⟨h1, h2⟩ <;> omega
    have hq' : pyTruthy (pyIndex (hex2bin msg) 47) = true := by
      rw [pyIndex_eq_getD hlen]
      rfl
    simp only [altitude]
    rw [if_neg hcond1, if_neg hcond2, if_pos hq']

/-- C4 witness: the surface branch at a concrete TC=6 frame, and the
Q-bit branch at the classic TC=11 frame, where N = 1560 gives
1560*25 - 1000 = 38000 feet. -/
theorem altitude_surface_and_qbit_one_witness :
    altitude msgSurf = Except.ok (some 0) ∧
    altitude msgAir = Except.ok (some
      ((bin2int (pySlice (hex2bin msgAir) 40 47 ++ pySlice (hex2bin msgAir) 48 52) : Int) * 25 - 1000)) ∧
    bin2int (pySlice (hex2bin msgAir) 40 47 ++ pySlice (hex2bin msgAir) 48 52) = 1560 :=
  ⟨altitude_surface_and_qbit_one.1 msgSurf (by decide) (by decide),
   altitude_surface_and_qbit_one.2 msgAir (Or.inl ⟨by decide, by decide⟩) (by decide),
   by decide⟩

/-- C9: on the airborne domain [9,18], the version-0 table `nic`
coincides with the version-1 table `nic_v1` applied to the message NICb
supplement bit returned by `nic_b`, and `nic` never yields -1 there. -/
theorem nic_refines_nic_v1 (msg : List Char) (b : Nat)
    (h9 : 9 ≤ typecode msg) (h18 : typecode msg ≤ 18)
    (hb : nic_b msg = Except.ok b) :
    nic msg = nic_v1 msg b ∧ nic msg ≠ Except.ok (-1) := by
  have hguard : ¬ (typecode msg < 9 ∨ 18 < typecode msg) := by omega
  unfold nic_b at hb
  rw [if_neg hguard] at hb
  have hb' : bin2int (pyIndex (hex2bin msg) 39) = b := by
    injection hb
  simp only [nic, nic_v1]
  rw [if_neg hguard, if_neg (show ¬ (typecode msg < 5 ∨ 22 < typecode msg) by omega), hb']
  obtain ⟨tc, htc⟩ : ∃ t, typecode msg = t := ⟨_, rfl⟩
  rw [htc] at h9 h18 ⊢
  by_cases hbz : b = 0 <;> interval_cases tc <;> exact ⟨by simp [hbz], by simp [hbz]⟩

/-- C9 witness: the agreement at the classic TC=11 frame, whose NICb
supplement bit is 0. -/
theorem nic_refines_nic_v1_witness :
    nic msgAir = nic_v1 msgAir 0 ∧ nic msgAir ≠ Except.ok (-1) :=
  nic_refines_nic_v1 msgAir 0 (by decide) (by decide) rfl

/-- C7: each integrity and accuracy decoder signals its RuntimeError
exactly when the typecode lies outside its stated domain
(nic and nic_b: [9,18]; nic_v1 and nic_v2: [5,22]; nic_s and
nic_a_and_c: TC 31; nac_p, sil and version: TC 29 or 31; nac_v: TC 19),
and the only unmapped-but-in-domain typecode, TC 19 of the version
tables, resolves to the categorical value -1 rather than an error. -/
theorem integrity_decoder_domains :
    (∀ msg : List Char, (∃ e, nic msg = Except.error e) ↔
      (typecode msg < 9 ∨ 18 < typecode msg)) ∧
    (∀ (msg : List Char) (a : Nat), (∃ e, nic_v1 msg a = Except.error e) ↔
      (typecode msg < 5 ∨ 22 < typecode msg)) ∧
    (∀ (msg : List Char) (a b c : Nat), (∃ e, nic_v2 msg a b c = Except.error e) ↔
      (typecode msg < 5 ∨ 22 < typecode msg)) ∧
    (∀ msg : List Char, (∃ e, nic_s msg = Except.error e) ↔ typecode msg ≠ 31) ∧
    (∀ msg : List Char, (∃ e, nic_a_and_c msg = Except.error e) ↔ typecode msg ≠ 31) ∧
    (∀ msg : List Char, (∃ e, nic_b msg = Except.error e) ↔
      (typecode msg < 9 ∨ 18 < typecode msg)) ∧
    (∀ msg : List Char, (∃ e, nac_p msg = Except.error e) ↔
      ¬ (typecode msg = 29 ∨ typecode msg = 31)) ∧
    (∀ msg : List Char, (∃ e, nac_v msg = Except.error e) ↔ typecode msg ≠ 19) ∧
    (∀ (msg : List Char) (v : Int), (∃ e, sil msg v = Except.error e) ↔
      ¬ (typecode msg = 29 ∨ typecode msg = 31)) ∧
    (∀ msg : List Char, (∃ e, version msg = Except.error e) ↔
      ¬ (typecode msg = 29 ∨ typecode msg = 31)) ∧
    (∀ (msg : List Char) (a : Nat), typecode msg = 19 → nic_v1 msg a = Except.ok (-1)) ∧
    (∀ (msg : List Char) (a b c : Nat), typecode msg = 19 →
      nic_v2 msg a b c = Except.ok (-1)) := by
  refine ⟨?_, ?_, ?_, ?_, ?_, ?_, ?_, ?_, ?_, ?_, ?_, ?_⟩
  · intro msg
    simp only [nic]
    by_cases h : typecode msg < 9 ∨ 18 < typecode msg
    · rw [if_pos h]; simp [h]
    · rw [if_neg h]; simp [h]
  · intro msg a
    simp only [nic_v1]
    by_cases h : typecode msg < 5 ∨ 22 < typecode msg
    · rw [if_pos h]; simp [h]
    · rw [if_neg h]; simp [h]
  · intro msg a b c
    simp only [nic_v2]
    by_cases h : typecode msg < 5 ∨ 22 < typecode msg
    · rw [if_pos h]; simp [h]
    · rw [if_neg h]; simp [h]
  · intro msg
    simp only [nic_s]
    by_cases h : typecode msg = 31
    · rw [if_neg (by simp [h])]; simp [h]
    · rw [if_pos h]; simp [h]
  · intro msg
    simp only [nic_a_and_c]
    by_cases h : typecode msg = 31
    · rw [if_neg (by simp [h])]; simp [h]
    · rw [if_pos h]; simp [h]
  · intro msg
    simp only [nic_b]
    by_cases h : typecode msg < 9 ∨ 18 < typecode msg
    · rw [if_pos h]; simp [h]
    · rw [if_neg h]; simp [h]
  · intro msg
    simp only [nac_p]
    by_cases h : typecode msg = 29 ∨ typecode msg = 31
    · rw [if_neg (by simp [h])]; simp [h]
    · rw [if_pos h]; simp [h]
  · intro msg
    simp only [nac_v]
    by_cases h : typecode msg = 19
    · rw [if_neg (by simp [h])]; simp [h]
    · rw [if_pos h]; simp [h]
  · intro msg v
    simp only [sil]
    by_cases h : typecode msg = 29 ∨ typecode msg = 31
    · rw [if_neg (by simp [h])]; simp [h]
    · rw [if_pos h]; simp [h]
  · intro msg
    simp only [ version]
    by_cases h : typecode msg = 29 ∨ typecode msg = 31
    · rw [if_neg (by simp [h])]; simp [h]
    · rw [if_pos h]; simp [h]
  · intro msg a h
    simp only [nic_v1]
    rw [if_neg (by omega)]
    simp [h]
  · intro msg a b c h
    simp only [nic_v2]
    rw [if_neg (by omega)]
    simp [h]

/-- C7 witness: TC 19 is in the domain of the version tables but
unmapped, so both resolve to -1 at a concrete TC=19 frame. -/
theorem integrity_decoder_domains_witness :
    nic_v1 msgVel 0 = Except.ok (-1) ∧ nic_v2 msgVel 0 0 0 = Except.ok (-1) :=
  ⟨integrity_decoder_domains.2.2.2.2.2.2.2.2.2.2.1 msgVel 0 (by decide),
   integrity_decoder_domains.2.2.2.2.2.2.2.2.2.2.2 msgVel 0 0 0 (by decide)⟩

theorem sameOutcome_refl {α : Type} (x : Except String α) : sameOutcome x x := by
  cases x with
  | error e => exact trivial
  | ok v => exact rfl

theorem sameOutcome_guard {α : Type} (c : Prop) [Decidable c] (e1 e2 : String)
    {x y : Except String α} (h : sameOutcome x y) :
    sameOutcome (if c then Except.error e1 else x) (if c then Except.error e2 else y) := by
  split_ifs with hc
  · exact trivial
  · exact h

set_option maxHeartbeats 1000000 in
/-- C8: flipping only the CPR odd/even bit (binary index 53) between
two 112-bit messages toggles `oe_flag` between 0 and 1 and changes no
other non-delegating decode function of this core (equality of decoded
values, or errors on both sides); and `oe_flag` depends on no bit other
than index 53. -/
theorem oe_flag_bit53_toggle_noninterference :
    (∀ m1 m2 : List Char, m1.length = 28 → m2.length = 28 →
      (∀ i ∈ Finset.range 112, i ≠ 53 → bitAt m1 i = bitAt m2 i) →
      bitAt m1 53 ≠ bitAt m2 53 →
      ((oe_flag m1 = 0 ∧ oe_flag m2 = 1) ∨ (oe_flag m1 = 1 ∧ oe_flag m2 = 0)) ∧
      decodeAgree m1 m2) ∧
    (∀ m1 m2 : List Char, m1.length = 28 → m2.length = 28 →
      bitAt m1 53 = bitAt m2 53 → oe_flag m1 = oe_flag m2) := by
  constructor
  · intro m1 m2 hl1 hl2 hag hne
    have hb1 : (hex2bin m1).length = 112 := by rw [hex2bin_length, hl1]
    have hb2 : (hex2bin m2).length = 112 := by rw [hex2bin_length, hl2]
    have hag' : ∀ i ∈ Finset.range 112, i ≠ 53 →
        (hex2bin m1).getD i '0' = (hex2bin m2).getD i '0' := hag
    have hs : ∀ a b : Nat, b ≤ 112 → (53 < a ∨ b ≤ 53) →
        pySlice (hex2bin m1) a b = pySlice (hex2bin m2) a b :=
      fun a b hb hout => pySlice_congr hb1 hb2 hag' a b hb hout
    have hidx : ∀ i : Nat, i < 112 → i ≠ 53 →
        pyIndex (hex2bin m1) i = pyIndex (hex2bin m2) i := by
      intro i hi hne53
      show pySlice (hex2bin m1) i (i + 1) = pySlice (hex2bin m2) i (i + 1)
      exact hs i (i + 1) (by omega) (by omega)
    have htc : typecode m1 = typecode m2 := by
      unfold typecode
      rw [hs 32 37 (by omega) (by omega)]
    have hdf : df m1 = df m2 := by
      unfold df
      rw [hs 0 5 (by omega) (by omega)]
    have hicao : icao m1 = icao m2 := by
      unfold icao
      rw [hs 8 32 (by omega) (by omega)]
    have hraw1 : pySlice m1 82 84 = [] := by
      unfold pySlice
      rw [List.drop_eq_nil_of_le (by omega)]
      rfl
    have hraw2 : pySlice m2 82 84 = [] := by
      unfold pySlice
      rw [List.drop_eq_nil_of_le (by omega)]
      rfl
    have hoe : ∀ m : List Char, (hex2bin m).length = 112 →
        oe_flag m = pyInt10 [bitAt m 53] := by
      intro m hm
      unfold oe_flag
      rw [pyIndex_eq_getD (by omega)]
      rfl
    constructor
    · rw [hoe m1 hb1, hoe m2 hb2]
      rcases bitAt_eq_bit m1 53 with h1 | h1 <;> rcases bitAt_eq_bit m2 53 with h2 | h2
      · rw [h1, h2] at hne; exact absurd rfl hne
      · rw [h1, h2]; exact Or.inl ⟨rfl, rfl⟩
      · rw [h1, h2]; exact Or.inr ⟨rfl, rfl⟩
      · rw [h1, h2] at hne; exact absurd rfl hne
    · refine ⟨htc, hdf, hicao, ?_, ?_, ?_, ?_, ?_, ?_, ?_, ?_, ?_, ?_, ?_⟩
      · simp only [altitude, htc, hs 40 47 (by omega) (by omega),
          hs 48 52 (by omega) (by omega), hidx 47 (by omega) (by omega)]
        exact sameOutcome_guard _ _ _ (sameOutcome_refl _)
      · simp only [nic, htc, hidx 39 (by omega) (by omega)]
        exact sameOutcome_guard _ _ _ (sameOutcome_refl _)
      · intro a
        simp only [nic_v1, htc]
        exact sameOutcome_guard _ _ _ (sameOutcome_refl _)
      · intro a b c
        simp only [nic_v2, htc]
        exact sameOutcome_guard _ _ _ (sameOutcome_refl _)
      · simp only [nic_s, htc, hidx 75 (by omega) (by omega)]
        exact sameOutcome_guard _ _ _ (sameOutcome_refl _)
      · simp only [nic_a_and_c, htc, hidx 75 (by omega) (by omega),
          hidx 51 (by omega) (by omega)]
        exact sameOutcome_guard _ _ _ (sameOutcome_refl _)
      · simp only [nic_b, htc, hidx 39 (by omega) (by omega)]
        exact sameOutcome_guard _ _ _ (sameOutcome_refl _)
      · simp only [nac_p, htc, hs 71 75 (by omega) (by omega),
          hs 76 80 (by omega) (by omega)]
        exact sameOutcome_guard _ _ _ (sameOutcome_refl _)
      · simp only [nac_v, htc, hs 42 45 (by omega) (by omega)]
        exact sameOutcome_guard _ _ _ (sameOutcome_refl _)
      · intro v
        simp only [sil, htc, hs 76 78 (by omega) (by omega), hraw1, hraw2,
          hidx 39 (by omega) (by omega), hidx 86 (by omega) (by omega)]
        exact sameOutcome_guard _ _ _ (sameOutcome_refl _)
      · simp only [ version, htc, hs 72 75 (by omega) (by omega)]
        exact sameOutcome_guard _ _ _ (sameOutcome_refl _)
  · intro m1 m2 hl1 hl2 heq
    have hb1 : (hex2bin m1).length = 112 := by rw [hex2bin_length, hl1]
    have hb2 : (hex2bin m2).length = 112 := by rw [hex2bin_length, hl2]
    unfold oe_flag
    rw [pyIndex_eq_getD (show 53 < (hex2bin m1).length by omega),
      pyIndex_eq_getD (show 53 < (hex2bin m2).length by omega)]
    have heq' : (hex2bin m1).getD 53 '0' = (hex2bin m2).getD 53 '0' := heq
    rw [heq']

set_option maxRecDepth 4000 in
/-- C8 witness: the classic TC=11 frame and its bit-53-flipped twin. -/
theorem oe_flag_bit53_toggle_noninterference_witness :
    ((oe_flag msgAir = 0 ∧ oe_flag msgAirFlip = 1) ∨
      (oe_flag msgAir = 1 ∧ oe_flag msgAirFlip = 0)) ∧
    decodeAgree msgAir msgAirFlip :=
  oe_flag_bit53_toggle_noninterference.1 msgAir msgAirFlip (by decide) (by decide)
    (by decide) (by decide)

end PyADSB
